import Mathlib

/-!
Shallow embedding of `src/main.rs` of the bevy-multiple-objects-performance-test
demo, and proofs about it.

Conventions of the embedding:
* `f32`/`f64` values (positions, speeds, elapsed seconds, FPS samples) are
  modelled as exact rationals `ℚ`.
* `u32` values are modelled as `ℕ`; where the source performs plain (wrapping)
  `u32` addition, the embedding takes the result modulo `2 ^ 32` explicitly.
* Bevy's `Timer` (repeating mode, never paused, positive duration — the only
  configuration used by the program) is embedded by its library semantics:
  `tick` adds the delta to the elapsed time, the timer is finished when the
  elapsed time reaches the duration, and a finished repeating timer reduces
  its elapsed time by whole multiples of the duration.
* Randomness (`Uniform::from(-10.0..10.0).sample`) is made explicit: spawn
  loops take the drawn coordinates as an argument, and theorems that need the
  distribution's support carry the hypothesis that each draw lies in
  `[-10, 10)` per axis, which is the support of `Uniform::from(-10.0..10.0)`.
-/

/-- `INITIAL_SPAWNING_RATE` constant of `main.rs`. -/
def INITIAL_SPAWNING_RATE : ℕ := 100

/-- `SPAWNING_RATE_STEP` constant of `main.rs`. -/
def SPAWNING_RATE_STEP : ℕ := 500

/-- A 3D vector, modelling bevy's `Vec3` with exact rationals. -/
structure Vec3 where
  x : ℚ
  y : ℚ
  z : ℚ
deriving DecidableEq

/-- Bevy's `Transform`, restricted to the only field the program touches. -/
structure Transform where
  translation : Vec3
deriving DecidableEq

/-- The `GeneratedCube` component of `main.rs`. -/
structure GeneratedCube where
  speed : ℚ
  x_range : ℚ
deriving DecidableEq

/-- `movement_system` of `main.rs`, restricted to one cube: first
`transform.translation.x += time.delta_seconds() * cube.speed;`, then
`if transform.translation.x > cube.x_range \x7b transform.translation.x -=
cube.x_range * 2.0; \x7d`. -/
def movement_system (cube : GeneratedCube) (tf : Transform) (delta : ℚ) : Transform :=
  let t1 : Transform :=
    { translation := { tf.translation with x := tf.translation.x + delta * cube.speed } }
  if t1.translation.x > cube.x_range then
    { translation := { t1.translation with x := t1.translation.x - cube.x_range * 2 } }
  else
    t1

/-- Claim C2: for every elapsed time `t ≥ 0`, speed `s` and starting
position `x`, one motion update produces `x' = x + s·t`; if `x' > x_range`
the result is `x' - 2·x_range`, otherwise `x'`; and the result differs from
`x'` by at most the single subtraction `2·x_range`, however far `x'` exceeds
`x_range`. -/
theorem movement_update_formula (cube : GeneratedCube) (tf : Transform) (t : ℚ)
    (ht : 0 ≤ t) :
    (movement_system cube tf t).translation.x =
      (if tf.translation.x + cube.speed * t > cube.x_range
       then tf.translation.x + cube.speed * t - 2 * cube.x_range
       else tf.translation.x + cube.speed * t) ∧
    ((movement_system cube tf t).translation.x = tf.translation.x + cube.speed * t ∨
     (movement_system cube tf t).translation.x =
       tf.translation.x + cube.speed * t - 2 * cube.x_range) := by
  have hc : t * cube.speed = cube.speed * t := mul_comm _ _
  simp only [movement_system, mul_comm cube.speed t]
  constructor
  · split <;> ring_nf
  · split
    · right; ring_nf
    · left; rfl

/-- Witness for C2 at a concrete input. -/
theorem movement_update_formula_witness :
    (movement_system ⟨10, 20⟩ ⟨⟨15, 1, 2⟩⟩ 1).translation.x =
      (if (15 : ℚ) + 10 * 1 > 20 then (15 : ℚ) + 10 * 1 - 2 * 20 else 15 + 10 * 1) :=
  (movement_update_formula ⟨10, 20⟩ ⟨⟨15, 1, 2⟩⟩ 1 (by norm_num)).1

/-- Counterexample to claim C3 as stated: with `speed = 10`, `x_range = 20`,
starting `x = 0` and elapsed time `t = 10`, the update yields `x = 60`,
outside `[-20, 20)` — the single wrap does not restore the invariant for
large displacements. -/
theorem movement_range_counterexample :
    (movement_system ⟨10, 20⟩ ⟨⟨0, 0, 0⟩⟩ 10).translation.x = 60 ∧
    ¬ ((-20 : ℚ) ≤ (movement_system ⟨10, 20⟩ ⟨⟨0, 0, 0⟩⟩ 10).translation.x ∧
       (movement_system ⟨10, 20⟩ ⟨⟨0, 0, 0⟩⟩ 10).translation.x < 20) := by
  constructor
  · norm_num [movement_system]
  · norm_num [movement_system]

/-- Claim C3, amended: if before the update `position.x` lies in the closed
interval `[-x_range, x_range]` and the displacement `speed·t` lies in
`[0, 2·x_range]`, then after the update `position.x` again lies in
`[-x_range, x_range]`. (As stated the claim fails: a displacement beyond
`2·x_range` overshoots, and the exact boundary `x = x_range` is reachable
and kept, so the half-open interval is not an invariant either.) -/
theorem movement_preserves_closed_range (cube : GeneratedCube) (tf : Transform) (t : ℚ)
    (h1 : -cube.x_range ≤ tf.translation.x) (h2 : tf.translation.x ≤ cube.x_range)
    (h3 : 0 ≤ cube.speed * t) (h4 : cube.speed * t ≤ 2 * cube.x_range) :
    -cube.x_range ≤ (movement_system cube tf t).translation.x ∧
    (movement_system cube tf t).translation.x ≤ cube.x_range := by
  have hc : t * cube.speed = cube.speed * t := mul_comm _ _
  simp only [movement_system]
  split
  · rename_i h
    dsimp only at h ⊢
    rw [hc] at h ⊢
    constructor <;> linarith
  · rename_i h
    dsimp only at h ⊢
    rw [hc] at h ⊢
    constructor <;> linarith

/-- Witness for the amended C3 at a concrete input. -/
theorem movement_preserves_closed_range_witness :
    (-20 : ℚ) ≤ (movement_system ⟨10, 20⟩ ⟨⟨15, 0, 0⟩⟩ 1).translation.x ∧
    (movement_system ⟨10, 20⟩ ⟨⟨15, 0, 0⟩⟩ 1).translation.x ≤ 20 :=
  movement_preserves_closed_range ⟨10, 20⟩ ⟨⟨15, 0, 0⟩⟩ 1
    (by norm_num) (by norm_num) (by norm_num) (by norm_num)

/-- Claim C9: the motion update never modifies the Y or Z coordinate of the
cube's position; only `position.x` changes. -/
theorem movement_fixes_y_z (cube : GeneratedCube) (tf : Transform) (t : ℚ) :
    (movement_system cube tf t).translation.y = tf.translation.y ∧
    (movement_system cube tf t).translation.z = tf.translation.z := by
  simp only [movement_system]
  split <;> exact ⟨rfl, rfl⟩

/-- An entity spawned by the cube spawning loop: the `GeneratedCube` component
together with the `Transform` produced by `Transform::from_xyz(x, y, z)`. -/
structure SpawnedEntity where
  cube : GeneratedCube
  transform : Transform
deriving DecidableEq

/-- One iteration of the spawn loop body of `cube_spawning_system`: given the
three sampled coordinates, spawn a `PbrBundle` at `Transform::from_xyz(x, y, z)`
together with `GeneratedCube \x7b x_range: 20.0, speed: 10.0 \x7d`. -/
def mkEntity (d : ℚ × ℚ × ℚ) : SpawnedEntity :=
  { cube := { speed := 10, x_range := 20 },
    transform := { translation := { x := d.1, y := d.2.1, z := d.2.2 } } }

/-- One spawn operation: spawn the entity for the drawn coordinates and
execute `counter.count += 1` — plain `u32` addition, which in release builds
wraps modulo `2 ^ 32`. State is (counter value, spawned entities). -/
def spawnOnce (st : ℕ × List SpawnedEntity) (d : ℚ × ℚ × ℚ) : ℕ × List SpawnedEntity :=
  ((st.1 + 1) % 2 ^ 32, st.2 ++ [mkEntity d])

/-- The `for _ in 0..spawner.spawning_rate` loop of `cube_spawning_system`,
with the random draws made explicit as the list `draws` (one triple per
iteration). -/
def spawnLoop (draws : List (ℚ × ℚ × ℚ)) (st : ℕ × List SpawnedEntity) :
    ℕ × List SpawnedEntity :=
  draws.foldl spawnOnce st

/-- The support of `Uniform::from(-10.0..10.0)` on each of the three axes:
every coordinate lies in the half-open interval `[-10, 10)`. -/
def inSpawnRange (d : ℚ × ℚ × ℚ) : Prop :=
  (-10 ≤ d.1 ∧ d.1 < 10) ∧ (-10 ≤ d.2.1 ∧ d.2.1 < 10) ∧ (-10 ≤ d.2.2 ∧ d.2.2 < 10)

instance (d : ℚ × ℚ × ℚ) : Decidable (inSpawnRange d) := by
  unfold inSpawnRange; infer_instance

theorem spawnLoop_eq (draws : List (ℚ × ℚ × ℚ)) (st : ℕ × List SpawnedEntity)
    (h : st.1 < 2 ^ 32) :
    spawnLoop draws st =
      ((st.1 + draws.length) % 2 ^ 32, st.2 ++ draws.map mkEntity) := by
  induction draws generalizing st with
  | nil =>
    simp only [spawnLoop, List.foldl_nil, List.length_nil, Nat.add_zero,
      List.map_nil, List.append_nil]
    rw [Nat.mod_eq_of_lt h]
  | cons d ds ih =>
    simp only [spawnLoop, List.foldl_cons] at *
    rw [ih (spawnOnce st d) (Nat.mod_lt _ (by norm_num))]
    simp only [spawnOnce, Nat.mod_add_mod, List.length_cons, List.map_cons,
      List.append_assoc, List.singleton_append, Prod.mk.injEq]
    constructor
    · omega
    · trivial

/-- Counterexample to claim C1 as stated: the counter increment at
`main.rs:149` is plain `u32` addition, so one spawn operation starting from
counter `2 ^ 32 - 1` wraps the counter to 0 instead of increasing it by 1:
the counter does not increase by exactly `n` for every starting value. -/
theorem spawn_counter_wrap_counterexample :
    (spawnLoop [((0 : ℚ), (0 : ℚ), (0 : ℚ))] (2 ^ 32 - 1, [])).1 = 0 ∧
    (spawnLoop [((0 : ℚ), (0 : ℚ), (0 : ℚ))] (2 ^ 32 - 1, [])).1 ≠
      (2 ^ 32 - 1) + 1 := by
  constructor
  · rfl
  · decide

/-- Claim C1, amended: running the spawn operation once per element of
`draws` (i.e. `n = draws.length` times) increases the counter by exactly `n`
— provided the starting counter plus `n` still fits in a `u32`, since the
`u32` counter increment wraps at `2 ^ 32` — and appends exactly `n` new
entities; provided every draw lies in the sampler's support, every new
entity has `x_range = 20`, `speed = 10`, and all three position coordinates
in `[-10, 10)`. -/
theorem spawn_n_times_spec (draws : List (ℚ × ℚ × ℚ)) (counter : ℕ)
    (es : List SpawnedEntity) (h : ∀ d ∈ draws, inSpawnRange d)
    (hc : counter + draws.length < 2 ^ 32) :
    (spawnLoop draws (counter, es)).1 = counter + draws.length ∧
    (spawnLoop draws (counter, es)).2 = es ++ draws.map mkEntity ∧
    (draws.map mkEntity).length = draws.length ∧
    ∀ e ∈ draws.map mkEntity,
      e.cube.x_range = 20 ∧ e.cube.speed = 10 ∧
      (-10 ≤ e.transform.translation.x ∧ e.transform.translation.x < 10) ∧
      (-10 ≤ e.transform.translation.y ∧ e.transform.translation.y < 10) ∧
      (-10 ≤ e.transform.translation.z ∧ e.transform.translation.z < 10) := by
  have hlt : ((counter, es) : ℕ × List SpawnedEntity).1 < 2 ^ 32 := by
    simp only
    omega
  refine ⟨?_, ?_, List.length_map _ _, ?_⟩
  · rw [spawnLoop_eq _ _ hlt]
    exact Nat.mod_eq_of_lt hc
  · rw [spawnLoop_eq _ _ hlt]
  · intro e he
    rcases List.mem_map.mp he with ⟨d, hd, rfl⟩
    rcases h d hd with ⟨hx, hy, hz⟩
    exact ⟨rfl, rfl, hx, hy, hz⟩

/-- Witness for the amended C1 at a concrete input: two draws, starting
counter 7, no overflow. -/
theorem spawn_n_times_spec_witness :
    (spawnLoop [((0 : ℚ), (0 : ℚ), (0 : ℚ)), (5, -3, 9)] (7, [])).1 = 7 + 2 ∧
    (spawnLoop [((0 : ℚ), (0 : ℚ), (0 : ℚ)), (5, -3, 9)] (7, [])).2 =
      [] ++ [((0 : ℚ), (0 : ℚ), (0 : ℚ)), (5, -3, 9)].map mkEntity :=
  let h := spawn_n_times_spec [((0 : ℚ), (0 : ℚ), (0 : ℚ)), (5, -3, 9)] 7 []
    (by decide) (by norm_num)
  ⟨h.1, h.2.1⟩

/-- Bevy's repeating `Timer`, as configured by `setup` (`TimerMode::Repeating`,
duration 1 s, never paused). `finished` records whether the timer finished
during the most recent tick. -/
structure Timer where
  elapsed : ℚ
  duration : ℚ
  finished : Bool
deriving DecidableEq

/-- `Timer::tick(delta)` for an unpaused repeating timer: add `delta` to the
elapsed time; the timer finished if the elapsed time reached the duration, and
in that case the elapsed time is reduced by every whole period that fits
(bevy computes `times_finished_this_tick = elapsed / duration` and subtracts
`duration * times_finished_this_tick`). -/
def Timer.tick (tm : Timer) (delta : ℚ) : Timer :=
  let e := tm.elapsed + delta
  if tm.duration ≤ e then
    { elapsed := e - tm.duration * ((⌊e / tm.duration⌋ : ℤ) : ℚ),
      duration := tm.duration, finished := true }
  else
    { elapsed := e, duration := tm.duration, finished := false }

/-- The `CubeSpawner` component of `main.rs`. -/
structure CubeSpawner where
  spawning_rate : ℕ
  timer : Timer
deriving DecidableEq

/-- `cube_spawning_system` of `main.rs`, restricted to one spawner: tick the
timer by the frame delta; if it finished, run the spawn loop
`spawning_rate` times (the random draws are made explicit as the function
`draws`, one triple per loop iteration). Returns the updated spawner, the
updated counter, and the list of entities spawned this tick. -/
def cube_spawning_system (spawner : CubeSpawner) (delta : ℚ) (draws : ℕ → ℚ × ℚ × ℚ)
    (counter : ℕ) : CubeSpawner × ℕ × List SpawnedEntity :=
  let timer' := spawner.timer.tick delta
  if timer'.finished then
    let st := spawnLoop ((List.range spawner.spawning_rate).map draws) (counter, [])
    ({ spawner with timer := timer' }, st.1, st.2)
  else
    ({ spawner with timer := timer' }, counter, [])

/-- Claim C6: each call of the spawning system ticks the timer exactly once
(so it is advanced/reset even when `spawning_rate = 0`); if the timer
finished — no matter how many whole periods elapsed during the tick — exactly
one batch of exactly `spawning_rate` cubes is spawned and the counter becomes
`counter + spawning_rate` under the `u32` counter's wrapping arithmetic; if
it did not finish, nothing is spawned and the counter is unchanged. The
hypothesis `counter < 2 ^ 32` states that the counter holds a `u32` value. -/
theorem cube_spawning_system_spec (spawner : CubeSpawner) (delta : ℚ)
    (draws : ℕ → ℚ × ℚ × ℚ) (counter : ℕ) (hc : counter < 2 ^ 32) :
    (cube_spawning_system spawner delta draws counter).1.timer =
      spawner.timer.tick delta ∧
    (cube_spawning_system spawner delta draws counter).1.spawning_rate =
      spawner.spawning_rate ∧
    ((spawner.timer.tick delta).finished = true →
      (cube_spawning_system spawner delta draws counter).2.2.length =
        spawner.spawning_rate ∧
      (cube_spawning_system spawner delta draws counter).2.1 =
        (counter + spawner.spawning_rate) % 2 ^ 32) ∧
    ((spawner.timer.tick delta).finished = false →
      (cube_spawning_system spawner delta draws counter).2.2 = [] ∧
      (cube_spawning_system spawner delta draws counter).2.1 = counter) := by
  unfold cube_spawning_system
  by_cases hf : (spawner.timer.tick delta).finished
  · have hlt : ((counter, ([] : List SpawnedEntity)) : ℕ × List SpawnedEntity).1 < 2 ^ 32 := hc
    simp [hf, spawnLoop_eq _ _ hlt]
  · simp only [Bool.not_eq_true] at hf
    simp [hf]

/-- Witness for C6 at a concrete input: a timer at 1/2 of its 1-second period
ticked by 5/2 seconds covers two whole periods yet spawns a single batch of
`spawning_rate = 2` cubes, bringing the counter from 4 to 6. -/
theorem cube_spawning_system_spec_witness :
    (cube_spawning_system ⟨2, ⟨1/2, 1, false⟩⟩ (5/2) (fun _ => (0, 0, 0)) 4).2.2.length = 2 ∧
    (cube_spawning_system ⟨2, ⟨1/2, 1, false⟩⟩ (5/2) (fun _ => (0, 0, 0)) 4).2.1 =
      (4 + 2) % 2 ^ 32 :=
  (cube_spawning_system_spec ⟨2, ⟨1/2, 1, false⟩⟩ (5/2) (fun _ => (0, 0, 0)) 4
      (by norm_num)).2.2.1
    (by norm_num [Timer.tick])

/-- `(SPAWNING_RATE_STEP as f32) * time.delta_seconds()` followed by
`.round() as u32`, as computed by both branches of `input_system`. For the
non-negative deltas of a frame clock this is exact up to `f32` precision. -/
def rateDelta (t : ℚ) : ℕ := (round ((SPAWNING_RATE_STEP : ℚ) * t)).toNat

/-- `spawner.spawning_rate += rounded` of `input_system`: plain `u32`
addition, which in release builds wraps modulo `2 ^ 32`. -/
def increaseRate (r d : ℕ) : ℕ := (r + d) % 2 ^ 32

/-- `u32::checked_sub`: `some (r - d)` when `d ≤ r`, `none` on underflow. -/
def u32_checked_sub (r d : ℕ) : Option ℕ :=
  if d ≤ r then some (r - d) else none

/-- The decrease branch of `input_system`:
`if let Some(v) = spawning_rate.checked_sub(rounded) \x7b v \x7d else \x7b 0 \x7d`. -/
def decreaseRate (r d : ℕ) : ℕ :=
  match u32_checked_sub r d with
  | some v => v
  | none => 0

/-- `input_system` of `main.rs`: `w` is `keyboard_input.pressed(KeyCode::W)`,
`s` is `keyboard_input.pressed(KeyCode::S)`, `r` the current
`spawning_rate`, `t` the frame's `delta_seconds`. The W branch runs first,
the S branch second, on the already-updated rate. -/
def input_system (w s : Bool) (r : ℕ) (t : ℚ) : ℕ :=
  let r1 := if w then increaseRate r (rateDelta t) else r
  if s then decreaseRate r1 (rateDelta t) else r1

theorem decreaseRate_eq (r d : ℕ) : decreaseRate r d = r - d := by
  by_cases hdr : d ≤ r
  · simp only [decreaseRate, u32_checked_sub, if_pos hdr]
  · simp only [decreaseRate, u32_checked_sub, if_neg hdr]
    omega

/-- Claim C4: the decrease operation is saturating: for every rate `r` and
computed delta `d` it returns `max (r - d) 0` over the integers; in
particular the result is `0` whenever `d` exceeds `r`, and it never
underflows or wraps. -/
theorem decrease_saturates (r d : ℕ) :
    ((decreaseRate r d : ℤ) = max ((r : ℤ) - (d : ℤ)) 0) ∧
    (r < d → decreaseRate r d = 0) := by
  rw [decreaseRate_eq]
  constructor
  · rcases le_total ((r : ℤ) - (d : ℤ)) 0 with hle | hle
    · rw [max_eq_right hle]; omega
    · rw [max_eq_left hle]; omega
  · intro hrd
    omega

/-- Witness for C4 at a concrete input: delta 5 exceeds rate 3, result 0. -/
theorem decrease_saturates_witness : decreaseRate 3 5 = 0 :=
  (decrease_saturates 3 5).2 (by norm_num)

/-- Counterexample to claim C5 as stated: holding both keys with
`spawning_rate = 2 ^ 32 - 1` and `delta_seconds = 1/500` (so both computed
deltas equal 1), the increase wraps to 0 and the saturating decrease keeps
0, a net change of `-(2 ^ 32 - 1)` rather than zero. -/
theorem both_keys_counterexample :
    input_system true true (2 ^ 32 - 1) (1 / 500) ≠ 2 ^ 32 - 1 := by
  have hd : rateDelta (1 / 500) = 1 := by
    unfold rateDelta SPAWNING_RATE_STEP
    norm_num
  unfold input_system
  rw [hd]
  norm_num [increaseRate, decreaseRate, u32_checked_sub]

/-- Claim C5, amended: when both keys are held in the same tick, both deltas
apply independently and cancel exactly — the rate is unchanged — for every
starting rate `r` whose increased value `r + rateDelta t` still fits in a
`u32` (without that proviso the wrapping increase destroys the
cancellation). -/
theorem both_keys_cancel (r : ℕ) (t : ℚ) (h : r + rateDelta t < 2 ^ 32) :
    input_system true true r t = r := by
  show decreaseRate (increaseRate r (rateDelta t)) (rateDelta t) = r
  rw [decreaseRate_eq]
  unfold increaseRate
  rw [Nat.mod_eq_of_lt h]
  omega

/-- Witness for the amended C5 at a concrete input: rate 100, 10 ms tick. -/
theorem both_keys_cancel_witness : input_system true true 100 (1 / 100) = 100 :=
  both_keys_cancel 100 (1 / 100)
    (by unfold rateDelta SPAWNING_RATE_STEP; norm_num; decide)

/-- Claim C10: the increase branch uses plain (wrapping) `u32` addition:
at `spawning_rate = 2 ^ 32 - 1` and delta 1 the mathematical sum `2 ^ 32`
exceeds `u32::MAX` and the stored result, 0, is not that sum — unlike the
decrease branch, which saturates at 0 on the same magnitudes. -/
theorem increase_wraps :
    (2 ^ 32 - 1) + 1 > 2 ^ 32 - 1 ∧
    increaseRate (2 ^ 32 - 1) 1 = 0 ∧
    increaseRate (2 ^ 32 - 1) 1 ≠ (2 ^ 32 - 1) + 1 ∧
    decreaseRate 0 1 = 0 := by
  refine ⟨by norm_num, ?_, ?_, rfl⟩ <;>
    · unfold increaseRate
      norm_num

/-- The FPS diagnostic handed to `counter_system` by the
`FrameTimeDiagnosticsPlugin`: each of `value()` (raw), `average()` (SMA) and
`smoothed()` (EMA) may independently be absent for a frame. -/
structure FpsDiagnostic where
  value : Option ℚ
  average : Option ℚ
  smoothed : Option ℚ

/-- The five value sections of the stats `TextBundle` (indices 1, 3, 5, 7, 9
of `text.sections`); the label sections at even indices are never written. -/
structure StatsText where
  section1 : String
  section3 : String
  section5 : String
  section7 : String
  section9 : String
deriving DecidableEq

/-- `format!("\x7bv:.2\x7d")`: fixed-point rendering with exactly two digits
after the decimal point (the value scaled by 100 and rounded to the nearest
integer; FPS samples are non-negative). -/
def formatF2 (q : ℚ) : String :=
  Int.repr (round (q * 100) / 100) ++ "." ++
    String.mk [Nat.digitChar ((round (q * 100) % 100).toNat / 10),
               Nat.digitChar ((round (q * 100) % 100).toNat % 10)]

/-- The number of characters strictly after the last `.` of a string (the
whole length if there is no `.`). -/
def decimalsAfterPoint (s : String) : ℕ :=
  (s.data.reverse.takeWhile (fun c => c ≠ '.')).length

theorem digitChar_ne_dot (n : ℕ) (h : n < 16) : Nat.digitChar n ≠ '.' := by
  interval_cases n <;> decide

theorem decimalsAfterPoint_formatF2 (q : ℚ) : decimalsAfterPoint (formatF2 q) = 2 := by
  have h100 : (round (q * 100) % 100).toNat < 100 := by
    have hnn := Int.emod_nonneg (round (q * 100)) (by norm_num : (100 : ℤ) ≠ 0)
    have hlt := Int.emod_lt_of_pos (round (q * 100)) (by norm_num : (0 : ℤ) < 100)
    omega
  have h1 : Nat.digitChar ((round (q * 100) % 100).toNat / 10) ≠ '.' :=
    digitChar_ne_dot _ (by omega)
  have h2 : Nat.digitChar ((round (q * 100) % 100).toNat % 10) ≠ '.' :=
    digitChar_ne_dot _ (by omega)
  unfold decimalsAfterPoint formatF2
  rw [String.data_append, String.data_append]
  simp [List.takeWhile, h1, h2]

/-- `counter_system` of `main.rs`: `changed` is `counter.is_changed()`,
`count` the counter's value, `rate` the spawner's `spawning_rate`, `diag`
the result of `diagnostics.get(FrameTimeDiagnosticsPlugin::FPS)`, and `text`
the current contents of the stats text sections. -/
def counter_system (changed : Bool) (count rate : ℕ) (diag : Option FpsDiagnostic)
    (text : StatsText) : StatsText :=
  let t1 := if changed then { text with section1 := Nat.repr count } else text
  let t2 := { t1 with section3 := Nat.repr rate }
  match diag with
  | none => t2
  | some fps =>
    let t3 := match fps.value with
      | some raw => { t2 with section5 := formatF2 raw }
      | none => t2
    let t4 := match fps.average with
      | some sma => { t3 with section7 := formatF2 sma }
      | none => t3
    match fps.smoothed with
      | some ema => { t4 with section9 := formatF2 ema }
      | none => t4

/-- Claim C7: each FPS display field (sections 5, 7, 9) keeps its previously
rendered string whenever its sample is `None` for the frame (also when the
whole FPS diagnostic is absent), and is rewritten to the sample formatted
with exactly two decimal places whenever the sample is present. -/
theorem fps_fields_retain_or_format (changed : Bool) (count rate : ℕ)
    (fps : FpsDiagnostic) (text : StatsText) :
    ((counter_system changed count rate none text).section5 = text.section5 ∧
     (counter_system changed count rate none text).section7 = text.section7 ∧
     (counter_system changed count rate none text).section9 = text.section9) ∧
    (fps.value = none →
      (counter_system changed count rate (some fps) text).section5 = text.section5) ∧
    (∀ raw, fps.value = some raw →
      (counter_system changed count rate (some fps) text).section5 = formatF2 raw ∧
      decimalsAfterPoint ((counter_system changed count rate (some fps) text).section5) = 2) ∧
    (fps.average = none →
      (counter_system changed count rate (some fps) text).section7 = text.section7) ∧
    (∀ sma, fps.average = some sma →
      (counter_system changed count rate (some fps) text).section7 = formatF2 sma ∧
      decimalsAfterPoint ((counter_system changed count rate (some fps) text).section7) = 2) ∧
    (fps.smoothed = none →
      (counter_system changed count rate (some fps) text).section9 = text.section9) ∧
    (∀ ema, fps.smoothed = some ema →
      (counter_system changed count rate (some fps) text).section9 = formatF2 ema ∧
      decimalsAfterPoint ((counter_system changed count rate (some fps) text).section9) = 2) := by
  rcases fps with ⟨v, a, s⟩
  refine ⟨?_, ?_, ?_, ?_, ?_, ?_, ?_⟩
  · cases changed <;> simp [counter_system]
  · rintro rfl
    cases changed <;> rcases a with _ | sma <;> rcases s with _ | ema <;>
      simp [counter_system]
  · rintro raw rfl
    cases changed <;> rcases a with _ | sma <;> rcases s with _ | ema <;>
      simp [counter_system, decimalsAfterPoint_formatF2]
  · rintro rfl
    cases changed <;> rcases v with _ | raw <;> rcases s with _ | ema <;>
      simp [counter_system]
  · rintro sma rfl
    cases changed <;> rcases v with _ | raw <;> rcases s with _ | ema <;>
      simp [counter_system, decimalsAfterPoint_formatF2]
  · rintro rfl
    cases changed <;> rcases v with _ | raw <;> rcases a with _ | sma <;>
      simp [counter_system]
  · rintro ema rfl
    cases changed <;> rcases v with _ | raw <;> rcases a with _ | sma <;>
      simp [counter_system, decimalsAfterPoint_formatF2]

/-- Witness for C7 at a concrete input: raw sample absent (field kept),
average present as `119/2` (field rewritten, two decimals). -/
theorem fps_fields_retain_or_format_witness :
    (counter_system true 3 7 (some ⟨none, some (119 / 2), none⟩)
        ⟨"a", "b", "c", "d", "e"⟩).section5 = "c" ∧
    (counter_system true 3 7 (some ⟨none, some (119 / 2), none⟩)
        ⟨"a", "b", "c", "d", "e"⟩).section7 = formatF2 (119 / 2) :=
  let h := fps_fields_retain_or_format true 3 7 ⟨none, some (119 / 2), none⟩
    ⟨"a", "b", "c", "d", "e"⟩
  ⟨h.2.1 rfl, (h.2.2.2.2.1 (119 / 2) rfl).1⟩

/-- Claim C8: after every run of `counter_system`, text section 3 equals the
decimal rendering of the spawner's current `spawning_rate`, whatever the
diagnostic inputs and previous text were — the field is rewritten
unconditionally. -/
theorem rate_field_unconditional (changed : Bool) (count rate : ℕ)
    (diag : Option FpsDiagnostic) (text : StatsText) :
    (counter_system changed count rate diag text).section3 = Nat.repr rate := by
  rcases diag with _ | ⟨v, a, s⟩
  · cases changed <;> simp [counter_system]
  · cases changed <;>
      rcases v with _ | raw <;> rcases a with _ | sma <;> rcases s with _ | ema <;>
      simp [counter_system]
